import Mathlib

/- Shallow embedding of the counting-game state machine and the sliding-window
rate limiter of the discord-ai-bot repository.  Both `main.py` variants
("DiscordAiBot + counting system + ticket system 1.1.0" and
"DiscordAiCompanion (3)") contain the same per-guild counting transition logic
in `handle_counting_message`; they differ in how the guild id is obtained for
direct messages and in the milestone replies, which are modelled separately. -/

namespace DiscordAiBot

/-- Per-guild counting state: the dict value stored in `counting_data`
(fields `current_number`, `last_user_id`, `channel_id`).  `current_number` is a
Python int, modelled as `Int`; `last_user_id` value `0` mirrors the sentinel
the code stores after a wrong-number reset
(`counting_data[gid] = {'current_number': 0, 'last_user_id': 0, ...}`). -/
structure CountingState where
  current_number : Int
  last_user_id : Nat
  channel_id : Nat
deriving DecidableEq, Repr

/-- Observable outcome of one counting submission, one constructor per reply
branch of `handle_counting_message`: the fresh-start reply, the checkmark
acknowledgment, the start-at-1 prompt, the double-post rejection, and the
wrong-number rejection. -/
inductive Outcome where
  | started
  | accepted (n : Nat)
  | rejectedNotStartedAtOne
  | rejectedDoublePost
  | rejectedWrongNumber (expected : Int) (got : Nat)
deriving DecidableEq, Repr

/-- One submission against a single guild's state; embeds the branch structure
of `handle_counting_message` (identical in both variants):
no entry and number 1 creates `{1, actor, channel}`; no entry otherwise leaves
the map untouched; with an entry, the double-post check
(`data['last_user_id'] == message.author.id`) runs first, then the
wrong-number check (`number != data['current_number'] + 1`) resets the entry to
`{0, 0, message.channel.id}`, and otherwise the number and actor are stored.
The submitted number comes from `int()` on digit-only text, hence `Nat`. -/
def submitGuild (st : Option CountingState) (actor chan n : Nat) :
    Outcome × Option CountingState :=
  match st with
  | none =>
    if n = 1 then (.started, some ⟨1, actor, chan⟩)
    else (.rejectedNotStartedAtOne, none)
  | some d =>
    if d.last_user_id = actor then (.rejectedDoublePost, some d)
    else if (n : Int) ≠ d.current_number + 1 then
      (.rejectedWrongNumber (d.current_number + 1) n, some ⟨0, 0, chan⟩)
    else (.accepted n, some ⟨(n : Int), actor, d.channel_id⟩)

/-- The process-wide `counting_data` mapping from guild id to game state. -/
def GameMap : Type := Nat → Option CountingState

/-- Point update of the guild map (a dict assignment `counting_data[g] = v`,
with `v = none` meaning the key is absent). -/
def updateMap (m : GameMap) (g : Nat) (v : Option CountingState) : GameMap :=
  fun g2 => if g2 = g then v else m g2

/-- The empty `counting_data` dict. -/
def emptyMap : GameMap := fun _ => none

/-- Map-level submission.  `parsed` is the result of `int(message.content.strip())`:
`none` when `int` raises `ValueError` (possible even for text passing
`str.isdigit`, e.g. superscript digits), in which case both variants return
without touching any state (`except ValueError: return` / `pass`). -/
def submit (m : GameMap) (g actor chan : Nat) (parsed : Option Nat) :
    Option Outcome × GameMap :=
  match parsed with
  | none => (none, m)
  | some n =>
    let r := submitGuild (m g) actor chan n
    (some r.1, updateMap m g r.2)

/-- The 1.1.0 variant's `handle_counting_message`: the `try` block covers only
the `int()` call, so a parse failure returns silently, but afterwards the code
runs `gid = message.guild.id` with no guard; on a direct message
`message.guild` is `None` and the attribute access raises, modelled as the
`none` result. -/
def handle_v1 (m : GameMap) (guild : Option Nat) (actor chan : Nat)
    (parsed : Option Nat) : Option (Option Outcome × GameMap) :=
  match parsed with
  | none => some (none, m)
  | some n =>
    match guild with
    | none => none
    | some g => some (submit m g actor chan (some n))

/-- The variant-(3) `handle_counting_message`: computes
`guild_id = message.guild.id if message.guild else 0`, so direct messages fall
back to the sentinel guild id 0. -/
def handle_v3 (m : GameMap) (guild : Option Nat) (actor chan : Nat)
    (parsed : Option Nat) : Option Outcome × GameMap :=
  submit m (guild.getD 0) actor chan parsed

/-- Classification of the reply sent after an accepted count. -/
inductive MilestoneClass where
  | huge
  | great
  | nice
  | plainEarly
  | noMilestone
deriving DecidableEq, Repr

/-- Reply selection after an accepted count in the variant-(3) handler
(`if number % 100 == 0: ... elif number % 50 == 0: ... elif number % 10 == 0:
... elif number <= 5: ...`, else no reply).  It reads only the accepted
number, never the guild or the actor. -/
def milestoneClass (n : Nat) : MilestoneClass :=
  if n % 100 = 0 then .huge
  else if n % 50 = 0 then .great
  else if n % 10 = 0 then .nice
  else if n ≤ 5 then .plainEarly
  else .noMilestone

/-- Run a sequence of (actor, channel, number) submissions against one guild's
state, collecting the outcomes. -/
def runTrace (st : Option CountingState) : List (Nat × Nat × Nat) → List Outcome
  | [] => []
  | (a, c, n) :: rest =>
    let r := submitGuild st a c n
    r.1 :: runTrace r.2 rest

/-- A per-guild state reachable from the absent-entry state by submissions. -/
inductive ReachableG : Option CountingState → Prop where
  | init : ReachableG none
  | step (s : Option CountingState) (a c n : Nat) :
      ReachableG s → ReachableG (submitGuild s a c n).2

/-- An outcome that successfully records a count (game start or acceptance). -/
def isStartOrAccept : Outcome → Bool
  | .started => true
  | .accepted _ => true
  | _ => false

/-- `RATE_LIMIT_REQUESTS = 10` from both variants. -/
def RATE_LIMIT_REQUESTS : Nat := 10

/-- `RATE_LIMIT_WINDOW = 60` (seconds) from both variants. -/
def RATE_LIMIT_WINDOW : Int := 60

/-- The pruning comprehension
`[t for t in user_rate_limits[user_id] if now - t < timedelta(seconds=60)]`:
keeps exactly the timestamps with `now - t < RATE_LIMIT_WINDOW` (strict). -/
def pruneLog (now : Int) (log : List Int) : List Int :=
  log.filter (fun t => now - t < RATE_LIMIT_WINDOW)

/-- `RateLimiter.is_rate_limited` for one actor: input is the actor's stored
timestamp list (`[]` when the actor has no entry, which the code treats the
same via `.get`/`setdefault`) and the current time; output is the decision and
the actor's stored list afterwards.  The code prunes, stores the pruned list,
returns `True` without appending when the pruned length reaches
`RATE_LIMIT_REQUESTS`, and otherwise appends `now` and returns `False`. -/
def is_rate_limited (log : List Int) (now : Int) : Bool × List Int :=
  if RATE_LIMIT_REQUESTS ≤ (pruneLog now log).length then (true, pruneLog now log)
  else (false, pruneLog now log ++ [now])

/-- Writing back an absent entry at a key that was already absent leaves the
dict extensionally unchanged. -/
theorem updateMap_absent (m : GameMap) (g : Nat) (h : m g = none) :
    updateMap m g none = m := by
  funext g2
  unfold updateMap
  split
  · next hg => rw [hg, h]
  · rfl

/-- A map-level submission rewrites only the submitted guild's entry. -/
theorem submit_frame (m : GameMap) (g actor chan : Nat) (parsed : Option Nat)
    (g2 : Nat) (hg : g2 ≠ g) : (submit m g actor chan parsed).2 g2 = m g2 := by
  cases parsed with
  | none => rfl
  | some n => simp [submit, updateMap, hg]

/-- C1: with no entry for the guild, submitting 1 returns Started and creates
`{current=1, last=actor, channel=channel}`; submitting any other number
returns RejectedNotStartedAtOne and leaves the whole map unchanged (no entry
is created); and with an existing entry, a submission by an actor different
from `last_user_id` of the number `current_number + 1` returns Accepted and
stores that number and that actor (the channel binding is untouched). -/
theorem submit_transitions (m : GameMap) (g a c n : Nat) (d : CountingState) :
    (m g = none →
      submit m g a c (some 1) = (some .started, updateMap m g (some ⟨1, a, c⟩)))
    ∧ (m g = none → n ≠ 1 →
      (submit m g a c (some n)).1 = some .rejectedNotStartedAtOne
        ∧ (submit m g a c (some n)).2 = m)
    ∧ (m g = some d → d.last_user_id ≠ a → (n : Int) = d.current_number + 1 →
      submit m g a c (some n) =
        (some (.accepted n), updateMap m g (some ⟨(n : Int), a, d.channel_id⟩))) := by
  refine ⟨fun h0 => ?_, fun h0 hn => ?_, fun hd hl he => ?_⟩
  · simp [submit, h0, submitGuild]
  · rw [show (submit m g a c (some n)).2 = updateMap m g none from by
      simp [submit, h0, submitGuild, hn]]
    exact ⟨by simp [submit, h0, submitGuild, hn], updateMap_absent m g h0⟩
  · simp [submit, hd, submitGuild, hl, he]

/-- Running game used in the witness: guild 5 started by actor 7 in channel 9. -/
def startedMap : GameMap := updateMap emptyMap 5 (some ⟨1, 7, 9⟩)

/-- Witness for C1 at concrete inputs: a fresh start on the empty map, a
rejected start with 3, and an acceptance of 2 by a second actor. -/
theorem submit_transitions_witness :
    (submit emptyMap 5 7 9 (some 1)
      = (some .started, updateMap emptyMap 5 (some ⟨1, 7, 9⟩)))
    ∧ ((submit emptyMap 5 7 9 (some 3)).1 = some .rejectedNotStartedAtOne
        ∧ (submit emptyMap 5 7 9 (some 3)).2 = emptyMap)
    ∧ (submit startedMap 5 8 9 (some 2)
      = (some (.accepted 2), updateMap startedMap 5 (some ⟨2, 8, 9⟩))) :=
  ⟨(submit_transitions emptyMap 5 7 9 3 ⟨1, 7, 9⟩).1 rfl,
   (submit_transitions emptyMap 5 7 9 3 ⟨1, 7, 9⟩).2.1 rfl (by decide),
   (submit_transitions startedMap 5 8 9 2 ⟨1, 7, 9⟩).2.2 rfl (by decide) (by decide)⟩

/-- C9: a failed integer parse is a silent no-op in the map-level submission
and in both variants' handlers: no outcome is produced, no handler faults, and
the whole guild map is returned unchanged. -/
theorem parse_failure_noop (m : GameMap) (guild : Option Nat) (g a c : Nat) :
    submit m g a c none = (none, m)
    ∧ handle_v1 m guild a c none = some (none, m)
    ∧ handle_v3 m guild a c none = (none, m) :=
  ⟨rfl, rfl, rfl⟩

/-- C5 (amended): the variant-(3) reply after an accepted count is classified
by the number alone: divisible by 100 gives the huge-milestone reply, else
divisible by 50 the great one, else divisible by 10 the nice one; a number not
divisible by 10 gets no milestone reply at all (only the plain early
acknowledgment when it is at most 5).  Divisibility by 25 alone plays no
role. -/
theorem milestone_characterization (n : Nat) :
    (milestoneClass n = .huge ↔ n % 100 = 0)
    ∧ (milestoneClass n = .great ↔ n % 50 = 0 ∧ n % 100 ≠ 0)
    ∧ (milestoneClass n = .nice ↔ n % 10 = 0 ∧ n % 50 ≠ 0)
    ∧ ((milestoneClass n = .plainEarly ∨ milestoneClass n = .noMilestone)
        ↔ n % 10 ≠ 0) := by
  unfold milestoneClass
  split
  · next h100 =>
    have h50 : n % 50 = 0 := by omega
    have h10 : n % 10 = 0 := by omega
    simp [h100, h50, h10]
  · next h100 =>
    split
    · next h50 =>
      have h10 : n % 10 = 0 := by omega
      simp [h100, h50, h10]
    · next h50 =>
      split
      · next h10 => simp [h100, h50, h10]
      · next h10 =>
        split <;> simp [h100, h50, h10]

/-- Counterexample for C5 as stated: 25 is divisible by 25 (and neither by 100
nor by 50), yet the code sends no milestone reply for it, where the claim
demands the "nice" classification. -/
theorem milestone_25_cex :
    25 % 25 = 0 ∧ 25 % 100 ≠ 0 ∧ 25 % 50 ≠ 0
      ∧ milestoneClass 25 = .noMilestone
      ∧ milestoneClass 25 ≠ .nice := by decide

/-- C3 (amended): a wrong number from an actor other than the last one yields
RejectedWrongNumber(expected = current+1, got = number) and, in the same step,
the guild entry is kept but rewritten to current = 0, last = the sentinel 0,
and channel_id rebound to the channel of the violating message (so the channel
binding is unchanged only when that message is in the bound channel). -/
theorem wrong_number_reset (d : CountingState) (a c n : Nat)
    (hl : d.last_user_id ≠ a) (hn : (n : Int) ≠ d.current_number + 1) :
    submitGuild (some d) a c n =
      (.rejectedWrongNumber (d.current_number + 1) n, some ⟨0, 0, c⟩) := by
  simp [submitGuild, hl, hn]

/-- Witness for C3's amended theorem: state {current=5, last=7, channel=11},
actor 8 submits 9 from channel 12. -/
theorem wrong_number_reset_witness :
    submitGuild (some ⟨5, 7, 11⟩) 8 12 9
      = (.rejectedWrongNumber 6 9, some ⟨0, 0, 12⟩) :=
  wrong_number_reset ⟨5, 7, 11⟩ 8 12 9 (by decide) (by decide)

/-- Counterexample for C3 as stated: with the game bound to channel 11, a
wrong number submitted from channel 12 rewrites channel_id to 12, so the
channel binding is not retained unchanged. -/
theorem wrong_number_channel_cex :
    (submitGuild (some ⟨5, 7, 11⟩) 8 12 9).2 = some ⟨0, 0, 12⟩
      ∧ (⟨0, 0, 12⟩ : CountingState).channel_id
          ≠ (⟨5, 7, 11⟩ : CountingState).channel_id := by decide

/-- C4 (amended): after a wrong-number reset the guild entry still exists with
current = 0 and last = the sentinel 0, so the next submission of 1 by any
actor with a nonzero id is handled by the running-game branch and succeeds
with outcome Accepted(1) — not Started, which only the absent-entry branch
produces; the spec's end-to-end trace holds with Accepted(1) as its final
outcome. -/
theorem restart_after_reset (d : CountingState) (a c : Nat)
    (hcur : d.current_number = 0) (hlast : d.last_user_id = 0) (ha : a ≠ 0) :
    submitGuild (some d) a c 1 = (.accepted 1, some ⟨1, a, d.channel_id⟩)
    ∧ runTrace none [(1, 7, 1), (1, 7, 2), (2, 7, 2), (2, 7, 3), (1, 7, 4), (1, 7, 1)]
      = [.started, .rejectedDoublePost, .accepted 2, .rejectedDoublePost,
         .rejectedWrongNumber 3 4, .accepted 1] := by
  constructor
  · have hl : d.last_user_id ≠ a := by rw [hlast]; exact fun h => ha h.symm
    simp [submitGuild, hl, hcur]
  · decide

/-- Witness for C4's amended theorem: the just-reset state {0, 0, 3} and
actor 7. -/
theorem restart_after_reset_witness :
    submitGuild (some ⟨0, 0, 3⟩) 7 4 1 = (.accepted 1, some ⟨1, 7, 3⟩)
      ∧ runTrace none [(1, 7, 1), (1, 7, 2), (2, 7, 2), (2, 7, 3), (1, 7, 4), (1, 7, 1)]
        = [.started, .rejectedDoublePost, .accepted 2, .rejectedDoublePost,
           .rejectedWrongNumber 3 4, .accepted 1] :=
  restart_after_reset ⟨0, 0, 3⟩ 7 4 (by decide) (by decide) (by decide)

/-- Counterexample for C4 as stated: in the spec's end-to-end trace the final
submission of 1 (after the wrong-number reset) produces Accepted(1), which is
a different outcome from the claimed Started. -/
theorem restart_outcome_cex :
    runTrace none [(1, 7, 1), (1, 7, 2), (2, 7, 2), (2, 7, 3), (1, 7, 4), (1, 7, 1)]
      = [.started, .rejectedDoublePost, .accepted 2, .rejectedDoublePost,
         .rejectedWrongNumber 3 4, .accepted 1]
      ∧ Outcome.accepted 1 ≠ .started := by decide

/-- C6: a submission by the actor recorded as last yields RejectedDoublePost
and returns the state records unchanged — for every submitted number, so even
a wrong number from the last actor never resets — and from that unchanged
state any other actor can still submit the valid next number and have it
accepted. -/
theorem double_post_frame (d : CountingState) (a c n : Nat)
    (h : d.last_user_id = a) :
    submitGuild (some d) a c n = (.rejectedDoublePost, some d)
    ∧ (∀ b c2 : Nat, ∀ n2 : Nat, b ≠ a → (n2 : Int) = d.current_number + 1 →
        (submitGuild (some d) b c2 n2).1 = .accepted n2) := by
  constructor
  · simp [submitGuild, h]
  · intro b c2 n2 hb he
    have hl : d.last_user_id ≠ b := by rw [h]; exact fun hh => hb hh.symm
    simp [submitGuild, hl, he]

/-- Witness for C6: state {current=2, last=4, channel=1}; actor 4 double-posts
a wrong number 7 with no effect, then actor 5 gets 3 accepted. -/
theorem double_post_frame_witness :
    submitGuild (some ⟨2, 4, 1⟩) 4 1 7 = (.rejectedDoublePost, some ⟨2, 4, 1⟩)
      ∧ (submitGuild (some ⟨2, 4, 1⟩) 5 1 3).1 = .accepted 3 :=
  ⟨(double_post_frame ⟨2, 4, 1⟩ 4 1 7 rfl).1,
   (double_post_frame ⟨2, 4, 1⟩ 4 1 7 rfl).2 5 1 3 (by decide) (by decide)⟩

/-- Pruning an already-pruned list changes nothing. -/
theorem pruneLog_idem (now : Int) (log : List Int) :
    pruneLog now (pruneLog now log) = pruneLog now log := by
  unfold pruneLog
  exact List.filter_eq_self.mpr fun a ha => (List.mem_filter.mp ha).2

/-- C2: for one actor, is_rate_limited decides "limited" exactly when the
post-pruning count reaches RATE_LIMIT_REQUESTS; a limited call stores only the
pruned list (the rejected attempt is not recorded), an admitted call appends
the current timestamp; and immediately repeating a limited call returns
limited again with the stored list literally unchanged. -/
theorem rate_limiter_spec (log : List Int) (now : Int) :
    ((is_rate_limited log now).1 = true
        ↔ RATE_LIMIT_REQUESTS ≤ (pruneLog now log).length)
    ∧ ((is_rate_limited log now).1 = true →
        (is_rate_limited log now).2 = pruneLog now log)
    ∧ ((is_rate_limited log now).1 = false →
        (is_rate_limited log now).2 = pruneLog now log ++ [now])
    ∧ ((is_rate_limited log now).1 = true →
        is_rate_limited (is_rate_limited log now).2 now
          = (true, (is_rate_limited log now).2)) := by
  by_cases hl : RATE_LIMIT_REQUESTS ≤ (pruneLog now log).length
  · refine ⟨by simp [is_rate_limited, hl], fun _ => by simp [is_rate_limited, hl],
      by simp [is_rate_limited, hl], fun _ => ?_⟩
    have h2 : (is_rate_limited log now).2 = pruneLog now log := by
      simp [is_rate_limited, hl]
    rw [h2]
    unfold is_rate_limited
    rw [pruneLog_idem, if_pos hl]
  · exact ⟨by simp [is_rate_limited, hl], by simp [is_rate_limited, hl],
      fun _ => by simp [is_rate_limited, hl], by simp [is_rate_limited, hl]⟩

/-- A stored log of ten fresh timestamps, saturating the quota. -/
def fullLog : List Int := [0, 0, 0, 0, 0, 0, 0, 0, 0, 0]

/-- Witness for C2: a saturated actor is limited with nothing appended and
stays limited on an immediate retry; a fresh actor is admitted and the
attempt is recorded. -/
theorem rate_limiter_spec_witness :
    (is_rate_limited fullLog 0).1 = true
    ∧ (is_rate_limited fullLog 0).2 = pruneLog 0 fullLog
    ∧ is_rate_limited (is_rate_limited fullLog 0).2 0
        = (true, (is_rate_limited fullLog 0).2)
    ∧ (is_rate_limited [] 0).1 = false
    ∧ (is_rate_limited [] 0).2 = pruneLog 0 [] ++ [0] :=
  ⟨by decide,
   (rate_limiter_spec fullLog 0).2.1 (by decide),
   (rate_limiter_spec fullLog 0).2.2.2 (by decide),
   by decide,
   (rate_limiter_spec [] 0).2.2.1 (by decide)⟩

/-- C8 (amended): pruning keeps exactly the timestamps whose age is strictly
below RATE_LIMIT_WINDOW; a timestamp whose age is the window length or more is
dropped, including one of age exactly RATE_LIMIT_WINDOW. -/
theorem pruneLog_membership (now t : Int) (log : List Int) :
    t ∈ pruneLog now log ↔ t ∈ log ∧ now - t < RATE_LIMIT_WINDOW := by
  simp [pruneLog]

/-- Counterexample for C8 as stated: a recorded timestamp of age exactly
RATE_LIMIT_WINDOW (60) is dropped by the prune, where the claim says a
timestamp of age exactly windowSeconds is retained. -/
theorem pruneLog_boundary_cex :
    (0 : Int) ∈ [(0 : Int)] ∧ (60 : Int) - 0 = RATE_LIMIT_WINDOW
      ∧ pruneLog 60 [0] = [] := by decide

/-- One submission preserves the per-guild state invariant: a nonnegative
current number, and the sentinel last actor whenever the current number is
zero. -/
theorem submitGuild_inv (d2 : CountingState) (st : Option CountingState)
    (a c n : Nat)
    (hst : ∀ d : CountingState, st = some d →
      0 ≤ d.current_number ∧ (d.current_number = 0 → d.last_user_id = 0))
    (h2 : (submitGuild st a c n).2 = some d2) :
    0 ≤ d2.current_number ∧ (d2.current_number = 0 → d2.last_user_id = 0) := by
  cases st with
  | none =>
    by_cases h1 : n = 1
    · simp [submitGuild, h1] at h2
      subst h2
      exact ⟨by norm_num, fun h => by norm_num at h⟩
    · simp [submitGuild, h1] at h2
  | some e =>
    have he := hst e rfl
    by_cases h1 : e.last_user_id = a
    · simp [submitGuild, h1] at h2
      subst h2
      exact he
    · by_cases hn : (n : Int) = e.current_number + 1
      · simp [submitGuild, h1, hn] at h2
        subst h2
        have h1e := he.1
        refine ⟨show (0 : Int) ≤ e.current_number + 1 by omega, fun h => ?_⟩
        have hz : e.current_number + 1 = (0 : Int) := h
        exact absurd hz (by omega)
      · simp [submitGuild, h1, hn] at h2
        subst h2
        exact ⟨le_refl 0, fun _ => rfl⟩

/-- The invariant holds in every state reachable by submissions. -/
theorem reachable_inv (s : Option CountingState) (hs : ReachableG s) :
    ∀ d : CountingState, s = some d →
      0 ≤ d.current_number ∧ (d.current_number = 0 → d.last_user_id = 0) := by
  induction hs with
  | init => intro d hd; exact Option.noConfusion hd
  | step s a c n hs ih => intro d hd; exact submitGuild_inv d s a c n ih hd

/-- Whenever a submission records a count (start or acceptance), the recorded
actor is the submitter, so the same actor's immediately following submission
hits the double-post branch and records nothing. -/
theorem accept_then_blocked (s : Option CountingState) (a c n c2 n2 : Nat)
    (h : isStartOrAccept (submitGuild s a c n).1 = true) :
    isStartOrAccept (submitGuild (submitGuild s a c n).2 a c2 n2).1 = false := by
  cases s with
  | none =>
    by_cases h1 : n = 1
    · simp [submitGuild, h1, isStartOrAccept]
    · simp [submitGuild, h1, isStartOrAccept] at h
  | some d =>
    by_cases h1 : d.last_user_id = a
    · simp [submitGuild, h1, isStartOrAccept] at h
    · by_cases hn : (n : Int) = d.current_number + 1
      · simp [submitGuild, h1, hn, isStartOrAccept]
      · simp [submitGuild, h1, hn, isStartOrAccept] at h

/-- C7 (amended): every per-guild state reachable from the absent-entry state
by submissions has a nonnegative current number and the sentinel last actor
(0) whenever the current number is 0; and no two immediately consecutive
submissions are both accepted with the same actor (a recording submission is
always followed, for that actor, by a non-recording one). -/
theorem counting_state_invariants :
    (∀ s, ReachableG s → ∀ d : CountingState, s = some d →
        0 ≤ d.current_number ∧ (d.current_number = 0 → d.last_user_id = 0))
    ∧ (∀ s : Option CountingState, ∀ a c n c2 n2 : Nat,
        isStartOrAccept (submitGuild s a c n).1 = true →
        isStartOrAccept (submitGuild (submitGuild s a c n).2 a c2 n2).1 = false) :=
  ⟨reachable_inv, accept_then_blocked⟩

/-- Witness for C7: the state after a fresh start by actor 7 satisfies the
invariant, and actor 7's follow-up submission of 2 records nothing. -/
theorem counting_state_invariants_witness :
    (0 ≤ (⟨1, 7, 9⟩ : CountingState).current_number
      ∧ ((⟨1, 7, 9⟩ : CountingState).current_number = 0
          → (⟨1, 7, 9⟩ : CountingState).last_user_id = 0))
    ∧ isStartOrAccept (submitGuild (submitGuild none 7 9 1).2 7 9 2).1 = false :=
  ⟨counting_state_invariants.1 (some ⟨1, 7, 9⟩)
      (ReachableG.step none 7 9 1 ReachableG.init) ⟨1, 7, 9⟩ rfl,
   counting_state_invariants.2 none 7 9 1 9 2 (by decide)⟩

/-- Counterexample for C7 as stated: actor 2 authors the accepted count 2,
actor 3's wrong number 9 is rejected (recording nothing) and resets the game,
and then actor 2 authors the next accepted count 1 — the same actor authored
two consecutive accepted counts. -/
theorem consecutive_accepts_cex :
    runTrace none [(1, 4, 1), (2, 4, 2), (3, 4, 9), (2, 4, 1)]
      = [.started, .accepted 2, .rejectedWrongNumber 3 9, .accepted 1]
      ∧ isStartOrAccept (.rejectedWrongNumber 3 9) = false := by decide

/-- C10 (amended): the variant-(3) handler treats a message with no guild (a
direct message) exactly as a submission for the sentinel guild id 0, so all
direct messages from all users drive one shared game: with no game under key
0, one user's DM of 1 starts it and a different user's DM of 2 is accepted in
it. -/
theorem dm_sentinel_guild (m : GameMap) (a b c c2 : Nat) (parsed : Option Nat)
    (h0 : m 0 = none) (hab : a ≠ b) :
    handle_v3 m none a c parsed = submit m 0 a c parsed
    ∧ (handle_v3 m none a c (some 1)).1 = some .started
    ∧ (handle_v3 (handle_v3 m none a c (some 1)).2 none b c2 (some 2)).1
        = some (.accepted 2) := by
  refine ⟨rfl, ?_, ?_⟩
  · simp [handle_v3, submit, h0, submitGuild]
  · have hstep : (handle_v3 m none a c (some 1)).2 = updateMap m 0 (some ⟨1, a, c⟩) := by
      simp [handle_v3, submit, h0, submitGuild]
    rw [hstep]
    norm_num [handle_v3, submit, updateMap, submitGuild, hab]

/-- Witness for C10's amended theorem: on the empty map, user 3's DM starts
the shared game and user 4's DM of 2 is accepted. -/
theorem dm_sentinel_guild_witness :
    handle_v3 emptyMap none 3 1 (some 5) = submit emptyMap 0 3 1 (some 5)
    ∧ (handle_v3 emptyMap none 3 1 (some 1)).1 = some .started
    ∧ (handle_v3 (handle_v3 emptyMap none 3 1 (some 1)).2 none 4 2 (some 2)).1
        = some (.accepted 2) :=
  dm_sentinel_guild emptyMap 3 4 1 2 (some 5) rfl (by decide)

/-- Counterexample for C10 as stated: the 1.1.0 handler dereferences
`message.guild.id` without a guard, so a digit-only direct message (guild
absent) makes it fault instead of completing — modelled as the `none`
result. -/
theorem dm_crash_v1_cex :
    handle_v1 emptyMap none 1 1 (some 1) = none := rfl

end DiscordAiBot
